import Mathlib

/-!
Verification of the Project Drishti Streamlit dashboard
(`streamlit_app.py`, `streamlit_components.py`, `streamlit_components2.py`).

The code under scrutiny is a thin HTTP adapter (`DrishtiAPI`) plus view
renderers.  We embed the JSON data model, the adapter operations and the
renderers the claims mention as executable Lean functions.  Transport is
modelled as an oracle `Request → Outcome`; the Python exception paths are
modelled by `Except`, and each adapter call additionally returns the list of
HTTP requests it issued, so that "exactly one request" and the per-request
method, path, body and timeout are provable facts.
-/

namespace Drishti

/-- JSON values, as produced by `response.json()`.  Objects are association
lists (Python dicts preserve insertion order; keys are unique in practice,
lookup takes the first binding).  Numbers are modelled as integers: no claim
depends on non-integral arithmetic. -/
inductive Json where
  | null : Json
  | bool (b : Bool) : Json
  | num (n : Int) : Json
  | str (s : String) : Json
  | arr (elems : List Json) : Json
  | obj (fields : List (String × Json)) : Json

namespace Json

/-- Key lookup in an object; `none` when the key is missing or the value is
not an object.  (Python `dict.get(k)` with the key absent returns `None`;
calling `.get` on a non-dict raises, which the callers below model
separately.) -/
def lookup : Json → String → Option Json
  | obj fields, k => fields.lookup k
  | _, _ => none

/-- Python `d.get(k, default)` on a dict. -/
def getD (j : Json) (k : String) (d : Json) : Json :=
  (j.lookup k).getD d

/-- Python truthiness of a JSON value (`None`, `False`, `0`, `""`, `[]`,
and the empty dict are falsy). -/
def truthy : Json → Bool
  | null => false
  | bool b => b
  | num n => n != 0
  | str s => !(s = "")
  | arr elems => !elems.isEmpty
  | obj fields => !fields.isEmpty

/-- Python `k in d` on a dict. -/
def hasKey (j : Json) (k : String) : Bool :=
  (j.lookup k).isSome

/-- Rendering a JSON value inside an f-string (`str()`); only the fact that
this is total matters to the claims. -/
def display : Json → String
  | null => "None"
  | bool true => "True"
  | bool false => "False"
  | num n => toString n
  | str s => s
  | arr _ => "[...]"
  | obj _ => "\x7b...\x7d"

end Json

/-- An outbound HTTP request as built by the `DrishtiAPI` methods:
the verb, the full URL (base address ++ path), the optional JSON body
(the `json=` keyword of `requests.post`), and the `timeout=` value in
seconds. -/
structure Request where
  verb : String
  url : String
  jsonBody : Option Json
  timeoutSecs : Nat

/-- Outcome of issuing one request, as seen by the adapter:
either the `requests` call raises an exception carrying a message
(connection refused, timeout, ...), or a response arrives with a status
code and a body whose JSON parse either fails (`response.json()` raises,
carrying the parse error message) or yields a value. -/
inductive Outcome where
  | exc (msg : String) : Outcome
  | resp (status : Nat) (body : Except String Json) : Outcome

/-- The transport layer: what happens when a given request is issued. -/
def Transport := Request → Outcome

/-- `except Exception as e: return ⟨"error": str(e), "success": False⟩` —
the failure result built by the six data operations. -/
def failureResult (msg : String) : Json :=
  Json.obj [("error", Json.str msg), ("success", Json.bool false)]

/-- `except Exception as e: return ⟨"error": str(e), "status": "error"⟩` —
the failure result built by `health_check`. -/
def healthFailureResult (msg : String) : Json :=
  Json.obj [("error", Json.str msg), ("status", Json.str "error")]

/-- The common `try: response = ...; return response.json() / except` shape of
every adapter method: an exception from the request, or from `response.json()`
on an unparseable body, is caught and turned into `onFail`; a parsed body is
returned as-is. -/
def handleOutcome (onFail : String → Json) : Outcome → Json
  | .exc msg => onFail msg
  | .resp _ (.error msg) => onFail msg
  | .resp _ (.ok j) => j

namespace DrishtiAPI

/-- `DrishtiAPI.health_check`: GET `/api/health`, timeout 5.  Returns the
adapter result together with the list of requests issued. -/
def health_check (base_url : String) (transport : Transport) :
    Json × List Request :=
  let req : Request := ⟨"GET", base_url ++ "/api/health", none, 5⟩
  (handleOutcome healthFailureResult (transport req), [req])

/-- `DrishtiAPI.get_dashboard_data`: GET `/api/dashboard`, timeout 10. -/
def get_dashboard_data (base_url : String) (transport : Transport) :
    Json × List Request :=
  let req : Request := ⟨"GET", base_url ++ "/api/dashboard", none, 10⟩
  (handleOutcome failureResult (transport req), [req])

/-- `DrishtiAPI.analyze_crowd_dynamics`: POST `/api/analyze-crowd-dynamics`
with `json=camera_data`, timeout 15. -/
def analyze_crowd_dynamics (base_url : String) (camera_data : Json)
    (transport : Transport) : Json × List Request :=
  let req : Request := ⟨"POST", base_url ++ "/api/analyze-crowd-dynamics",
    some camera_data, 15⟩
  (handleOutcome failureResult (transport req), [req])

/-- `DrishtiAPI.generate_situational_summary`: POST `/api/situational-summary`
with `json=query_data`, timeout 20. -/
def generate_situational_summary (base_url : String) (query_data : Json)
    (transport : Transport) : Json × List Request :=
  let req : Request := ⟨"POST", base_url ++ "/api/situational-summary",
    some query_data, 20⟩
  (handleOutcome failureResult (transport req), [req])

/-- `DrishtiAPI.dispatch_emergency`: POST `/api/emergency-incident`
with `json=incident_data`, timeout 15. -/
def dispatch_emergency (base_url : String) (incident_data : Json)
    (transport : Transport) : Json × List Request :=
  let req : Request := ⟨"POST", base_url ++ "/api/emergency-incident",
    some incident_data, 15⟩
  (handleOutcome failureResult (transport req), [req])

/-- `DrishtiAPI.detect_anomalies`: POST `/api/detect-anomalies`
with `json=detection_data`, timeout 15. -/
def detect_anomalies (base_url : String) (detection_data : Json)
    (transport : Transport) : Json × List Request :=
  let req : Request := ⟨"POST", base_url ++ "/api/detect-anomalies",
    some detection_data, 15⟩
  (handleOutcome failureResult (transport req), [req])

/-- `DrishtiAPI.search_missing_person`: POST `/api/missing-person`
with `json=search_data`, timeout 20. -/
def search_missing_person (base_url : String) (search_data : Json)
    (transport : Transport) : Json × List Request :=
  let req : Request := ⟨"POST", base_url ++ "/api/missing-person",
    some search_data, 20⟩
  (handleOutcome failureResult (transport req), [req])

end DrishtiAPI

/-- The adapter operations, for quantifying over all of them at once. -/
inductive Op where
  | health | dashboard | analyzeCrowd | summary | dispatch | detect | search
deriving DecidableEq, Repr

/-- Run one adapter operation.  The GET operations take no payload and
ignore the `payload` argument. -/
def runOp (op : Op) (base_url : String) (payload : Json)
    (transport : Transport) : Json × List Request :=
  match op with
  | .health => DrishtiAPI.health_check base_url transport
  | .dashboard => DrishtiAPI.get_dashboard_data base_url transport
  | .analyzeCrowd => DrishtiAPI.analyze_crowd_dynamics base_url payload transport
  | .summary => DrishtiAPI.generate_situational_summary base_url payload transport
  | .dispatch => DrishtiAPI.dispatch_emergency base_url payload transport
  | .detect => DrishtiAPI.detect_anomalies base_url payload transport
  | .search => DrishtiAPI.search_missing_person base_url payload transport

/-- The six payload-bearing or data operations, i.e. every operation other
than the health check; these share the `failureResult` error shape. -/
def Op.isDataOp : Op → Bool
  | .health => false
  | _ => true

/-!
## Renderers

Streamlit calls (`st.metric`, `st.error`, ...) are modelled as widgets
appended to an output list.  Python expressions that can raise
(`d.get(...)` on a non-dict, `int(x * 100)` on a non-number, iteration over
a non-list, `", ".join` of non-strings, `.upper()` of a non-string) are
modelled in `Except String`; a raise aborts the renderer (in Streamlit it
aborts the page render — the partially drawn widgets before the raise are
not modelled, which only matters on raising executions, and every claim
below concerns non-raising ones).
-/

/-- One Streamlit display call. -/
inductive Widget where
  | metric (label value : String) : Widget
  | successMsg (text : String) : Widget
  | errorMsg (text : String) : Widget
  | warningMsg (text : String) : Widget
  | infoMsg (text : String) : Widget
  | header (text : String) : Widget
  | subheader (text : String) : Widget
  | writeText (text : String) : Widget
  | alertBox (cls text : String) : Widget
  | divider : Widget
  | chart (title : String) : Widget
  | mapView : Widget
  | expanderStart (title : String) : Widget
  | expanderEnd : Widget
deriving DecidableEq, Repr

/-- Python `d.get(k, default)`: `AttributeError` when `d` is not a dict. -/
def pyGet (j : Json) (k : String) (d : Json) : Except String Json :=
  match j with
  | .obj fields => .ok ((fields.lookup k).getD d)
  | _ => .error "AttributeError"

/-- Python `d.get(k)` — default `None`. -/
def pyGetN (j : Json) (k : String) : Except String Json :=
  pyGet j k .null

/-- Python `int(x * 100)`: `TypeError` when `x` is not a number.  (Numbers
are integral in this model; no claim involves fractional values.) -/
def pyIntTimes100 : Json → Except String Int
  | .num n => .ok (n * 100)
  | _ => .error "TypeError"

/-- Python `for x in v` over a JSON value: only lists are iterable in the
executions the claims exercise. -/
def pyList : Json → Except String (List Json)
  | .arr elems => .ok elems
  | _ => .error "TypeError"

/-- Python `s.upper()`: `AttributeError` when the value is not a string. -/
def pyUpper : Json → Except String String
  | .str s => .ok s.toUpper
  | _ => .error "AttributeError"

/-- Python `", ".join(v)`: `TypeError` unless `v` is a list of strings. -/
def pyJoinComma (j : Json) : Except String String := do
  let items ← pyList j
  let strs ← items.mapM fun x =>
    match x with
    | Json.str s => Except.ok s
    | _ => Except.error "TypeError"
  pure (String.intercalate ", " strs)

/-- Drop leading whitespace characters from a character list. -/
def dropLeadingWs : List Char → List Char
  | [] => []
  | c :: cs => if c.isWhitespace then dropLeadingWs cs else c :: cs

/-- Python `s.strip()` (leading and trailing whitespace removed). -/
def pyStrip (s : String) : String :=
  String.mk ((dropLeadingWs (dropLeadingWs s.data).reverse).reverse)

/-- `show_offline_dashboard` (streamlit_app.py 375-403): the fixed offline
sample metrics shown when the dashboard fetch fails. -/
def show_offline_dashboard : List Widget :=
  [ .metric "Active Cameras" "12",
    .metric "Avg Crowd Density" "45%",
    .metric "Active Emergencies" "2",
    .metric "Response Time" "6 min",
    .divider,
    .chart "Sample Crowd Density Over Time",
    .infoMsg "💡 This is sample data. Start the backend server to see live data." ]

/-- The `try: datetime.fromisoformat(...) / except: "Unknown"` timestamp
formatting inside the alert loop.  Wall-clock parsing is not modelled: a
non-string raises inside the `try` and formats as "Unknown"; for a string
we keep the raw text (no claim depends on the formatted value). -/
def formatAlertTime : Json → String
  | .str s => s
  | _ => "Unknown"

/-- One iteration of the alert loop in `show_live_alerts`
(streamlit_components.py 81-109). -/
def renderAlert (alert : Json) : Except String (List Widget) := do
  let priority ← pyGet alert "priority" (Json.str "LOW")
  let message ← pyGet alert "message" (Json.str "No message")
  let timestamp ← pyGet alert "timestamp" (Json.str "")
  let acknowledged ← pyGet alert "acknowledged" (Json.bool false)
  let time_str := formatAlertTime timestamp
  let alert_class :=
    match priority with
    | Json.str "HIGH" => "alert-high"
    | Json.str "MEDIUM" => "alert-medium"
    | _ => "alert-low"
  pure [Widget.alertBox alert_class
    (priority.display ++ " PRIORITY | " ++ message.display ++ " | " ++ time_str ++
      (if acknowledged.truthy then " ✅ Acknowledged" else " ⚠️ Pending"))]

/-- `show_live_alerts` (streamlit_components.py 74-109). -/
def show_live_alerts (alerts : Json) : Except String (List Widget) :=
  if !alerts.truthy then .ok [.successMsg "✅ No active alerts"]
  else do
    let items ← pyList alerts
    let rendered ← items.mapM renderAlert
    pure rendered.flatten

/-- `show_system_metrics` (streamlit_components.py 111-142). -/
def show_system_metrics (metrics : Json) : Except String (List Widget) :=
  if !metrics.truthy then .ok [.infoMsg "No metrics data available"]
  else do
    let crowd_metrics ← pyGet metrics "crowdAnalysis" (Json.obj [])
    let people ← pyGet crowd_metrics "totalPeopleDetected" (Json.num 0)
    let avg_density ← pyGet crowd_metrics "averageDensity" (Json.num 0)
    let flow_rate ← pyGet crowd_metrics "flowRate" (Json.str "NORMAL")
    let security_metrics ← pyGet metrics "security" (Json.obj [])
    let anomalies ← pyGet security_metrics "anomaliesDetected" (Json.num 0)
    let threat ← pyGet security_metrics "threatLevel" (Json.str "LOW")
    let resp_time ← pyGet security_metrics "responseTime" (Json.num 0)
    let ops_metrics ← pyGet metrics "operations" (Json.obj [])
    let active_incidents ← pyGet ops_metrics "activeIncidents" (Json.num 0)
    let units_available ← pyGet ops_metrics "unitsAvailable" (Json.num 0)
    let uptime ← pyGet ops_metrics "systemUptime" (Json.str "99.9%")
    pure [ .subheader "👥 Crowd Analysis",
      .metric "People Detected" people.display,
      .metric "Average Density" (avg_density.display ++ "%"),
      .metric "Flow Rate" flow_rate.display,
      .subheader "🔒 Security",
      .metric "Anomalies Detected" anomalies.display,
      .metric "Threat Level" threat.display,
      .metric "Response Time" (resp_time.display ++ " min"),
      .subheader "🚨 Operations",
      .metric "Active Incidents" active_incidents.display,
      .metric "Units Available" units_available.display,
      .metric "System Uptime" uptime.display ]

/-- The error tail shared by every renderer failure branch:
`st.error(headline)`, then `if "error" in result: st.error(f"Error: ...")`. -/
def renderErrorTail (headline : String) (result : Json) :
    Except String (List Widget) := do
  let errW ←
    if result.hasKey "error" then do
      let e ← pyGetN result "error"
      pure [Widget.errorMsg ("Error: " ++ e.display)]
    else pure []
  pure (Widget.errorMsg headline :: errW)

/-- `show_dashboard` after the fetch (streamlit_app.py 280-373), as a
function of the adapter result. -/
def renderDashboard (dashboard_data : Json) : Except String (List Widget) := do
  let ok ← pyGetN dashboard_data "success"
  if ok.truthy then do
    let summary ← pyGet dashboard_data "summary" (Json.obj [])
    let metrics ← pyGet dashboard_data "metrics" (Json.obj [])
    let total_cameras ← pyGet summary "totalCameras" (Json.num 0)
    let active_cameras ← pyGet summary "activeCameras" total_cameras
    let density ← pyGet summary "avgCrowdDensity" (Json.num 0)
    let density_pct ← pyIntTimes100 density
    let emergencies ← pyGet summary "activeEmergencies" (Json.num 0)
    let ops ← pyGet metrics "operations" (Json.obj [])
    let response_time ← pyGet ops "emergencyResponseTime" (Json.num 5)
    let alerts ← pyGet dashboard_data "alerts" (Json.arr [])
    let alertsW ← show_live_alerts alerts
    let metricsW ← show_system_metrics metrics
    let recent_activity ← pyGet dashboard_data "recentActivity" (Json.obj [])
    let last_analysis ← pyGetN recent_activity "lastAnalysis"
    let last_emergency ← pyGetN recent_activity "lastEmergency"
    let last_alert ← pyGetN recent_activity "lastAlert"
    pure ([ Widget.header "📊 Real-Time Dashboard",
      .metric "Active Cameras" active_cameras.display,
      .metric "Avg Crowd Density" (toString density_pct ++ "%"),
      .metric "Active Emergencies" emergencies.display,
      .metric "Response Time" (response_time.display ++ " min"),
      .divider,
      .subheader "🗺️ Situational Map",
      .mapView,
      .subheader "🚨 Live Alerts" ] ++ alertsW ++
      [Widget.subheader "📈 System Metrics"] ++ metricsW ++
      [Widget.subheader "🕒 Recent Activity",
       (if last_analysis.truthy
          then Widget.infoMsg ("🔍 Last Analysis: " ++ last_analysis.display)
          else Widget.infoMsg "🔍 No recent analysis"),
       (if last_emergency.truthy
          then Widget.warningMsg ("🚨 Last Emergency: " ++ last_emergency.display)
          else Widget.successMsg "🚨 No recent emergencies"),
       (if last_alert.truthy
          then Widget.errorMsg ("⚠️ Last Alert: " ++ last_alert.display)
          else Widget.successMsg "⚠️ No recent alerts")])
  else do
    let tail ← renderErrorTail "❌ Failed to load dashboard data" dashboard_data
    pure ([Widget.header "📊 Real-Time Dashboard"] ++ tail ++
      [Widget.infoMsg "📱 Running in offline mode with sample data"] ++
      show_offline_dashboard)

/-- `show_dashboard` (streamlit_app.py 278-373): fetch then render; also
returns the requests issued. -/
def show_dashboard (base_url : String) (transport : Transport) :
    Except String (List Widget) × List Request :=
  let fetched := DrishtiAPI.get_dashboard_data base_url transport
  (renderDashboard fetched.1, fetched.2)

/-- One iteration of the recommended-actions loop in `show_crowd_analysis`
(streamlit_components.py 220-229). -/
def renderProactiveAction (action : Json) : Except String (List Widget) := do
  let priority ← pyGet action "priority" (Json.str "LOW")
  let action_text ← pyGet action "action" (Json.str "No action specified")
  match priority with
  | Json.str "CRITICAL" =>
      pure [Widget.errorMsg ("🚨 " ++ priority.display ++ ": " ++ action_text.display)]
  | Json.str "HIGH" =>
      pure [Widget.warningMsg ("⚠️ " ++ priority.display ++ ": " ++ action_text.display)]
  | _ =>
      pure [Widget.infoMsg ("ℹ️ " ++ priority.display ++ ": " ++ action_text.display)]

/-- The result-rendering part of `show_crowd_analysis`
(streamlit_components.py 184-234), as a function of the adapter result. -/
def renderCrowdAnalysisResult (result : Json) : Except String (List Widget) := do
  let ok ← pyGetN result "success"
  if ok.truthy then do
    let analysis ← pyGet result "analysis" (Json.obj [])
    let current_metrics ← pyGet analysis "currentMetrics" (Json.obj [])
    let predictions ← pyGet analysis "predictions" (Json.obj [])
    let people_count ← pyGet current_metrics "peopleCount" (Json.num 0)
    let density ← pyGet current_metrics "density" (Json.num 0)
    let density_pct ← pyIntTimes100 density
    let alert_level ← pyGet analysis "alertLevel" (Json.str "LOW")
    let confidence ← pyGet predictions "confidence" (Json.num 0)
    let confidence_pct ← pyIntTimes100 confidence
    let bottleneck_time ← pyGetN predictions "timeToBottleneck"
    let proactive_actions ← pyGet analysis "proactiveActions" (Json.obj [])
    let actions ← pyGet proactive_actions "actions" (Json.arr [])
    let actionsW ←
      if actions.truthy then do
        let items ← pyList actions
        let rows ← items.mapM renderProactiveAction
        pure (Widget.subheader "🎯 Recommended Actions" :: rows.flatten)
      else pure []
    pure ([ Widget.successMsg "✅ Analysis Complete",
      .metric "People Count" people_count.display,
      .metric "Density" (toString density_pct ++ "%"),
      .metric "Alert Level" alert_level.display,
      .metric "Confidence" (toString confidence_pct ++ "%"),
      .subheader "🔮 Predictions",
      (if bottleneck_time.truthy
         then Widget.warningMsg
           ("⚠️ Bottleneck predicted in " ++ bottleneck_time.display ++ " minutes")
         else Widget.successMsg "✅ No immediate bottleneck risk detected") ] ++
      actionsW)
  else
    renderErrorTail "❌ Analysis failed" result

/-- The analyze-button handler of `show_crowd_analysis`
(streamlit_components.py 167-183): builds `camera_data` and calls the
adapter, then renders. -/
def show_crowd_analysis_submit (selected_camera camera_location : String)
    (coverage_area : Int) (base_url : String) (transport : Transport) :
    Except String (List Widget) × List Request :=
  let camera_data := Json.obj [
    ("videoFeed", Json.obj [("mockData", Json.bool true)]),
    ("cameraMetadata", Json.obj [
      ("cameraId", Json.str selected_camera),
      ("location", Json.str camera_location),
      ("frameWidth", Json.num 1920),
      ("frameHeight", Json.num 1080),
      ("coverageAreaSqMeters", Json.num coverage_area)])]
  let called := DrishtiAPI.analyze_crowd_dynamics base_url camera_data transport
  (renderCrowdAnalysisResult called.1, called.2)

/-- The `if threat_level == "RED" ... elif "YELLOW" ... else` display in
`show_ai_summary` (streamlit_components.py 319-325). -/
def threatLevelWidget (threat_level : Json) : Widget :=
  match threat_level with
  | Json.str "RED" => .errorMsg ("🔴 Threat Level: " ++ threat_level.display)
  | Json.str "YELLOW" => .warningMsg ("🟡 Threat Level: " ++ threat_level.display)
  | _ => .successMsg ("🟢 Threat Level: " ++ threat_level.display)

/-- One action-items block of `show_ai_summary`
(streamlit_components.py 348-361): a label line then one line per action. -/
def renderActionBlock (label tag : String) (mk : String → Widget)
    (actions : Json) : Except String (List Widget) :=
  if actions.truthy then do
    let items ← pyList actions
    let rows ← items.mapM fun action => do
      let a ← pyGet action "action" (Json.str "No action specified")
      pure (mk (tag ++ a.display))
    pure (Widget.writeText label :: rows)
  else pure []

/-- The result-rendering part of `show_ai_summary`
(streamlit_components.py 302-371). -/
def renderAiSummaryResult (result : Json) : Except String (List Widget) := do
  let ok ← pyGetN result "success"
  if ok.truthy then do
    let briefing ← pyGet result "briefing" (Json.obj [])
    let intelligence ← pyGet result "intelligence" (Json.obj [])
    let action_items ← pyGet result "actionItems" (Json.obj [])
    let exec_summary ← pyGet briefing "executiveSummary"
      (Json.str "No summary available")
    let threat_assessment ← pyGet briefing "threatAssessment" (Json.obj [])
    let threat_level ← pyGet threat_assessment "level" (Json.str "UNKNOWN")
    let confidence ← pyGet intelligence "confidence" (Json.num 0)
    let sentiment ← pyGet intelligence "sentiment" (Json.str "NEUTRAL")
    let immediate_threats ← pyGet threat_assessment "immediateThreats" (Json.arr [])
    let threatsW ←
      if immediate_threats.truthy then do
        let items ← pyList immediate_threats
        pure (Widget.subheader "⚠️ Immediate Threats" ::
          items.map fun t => Widget.warningMsg ("• " ++ t.display))
      else pure []
    let immediate_actions ← pyGet action_items "immediate" (Json.arr [])
    let planned_actions ← pyGet action_items "planned" (Json.arr [])
    let monitoring_actions ← pyGet action_items "monitoring" (Json.arr [])
    let immW ← renderActionBlock "**Immediate Actions:**" "🚨 "
      Widget.errorMsg immediate_actions
    let plannedW ← renderActionBlock "**Planned Actions:**" "⚠️ "
      Widget.warningMsg planned_actions
    let monitoringW ← renderActionBlock "**Monitoring Actions:**" "ℹ️ "
      Widget.infoMsg monitoring_actions
    let data_sources ← pyGet result "dataSourcesUsed" (Json.arr [])
    let joined ← pyJoinComma data_sources
    pure ([ Widget.successMsg "✅ Summary Generated",
      .subheader "📋 Executive Summary",
      .writeText exec_summary.display,
      .subheader "🔍 Threat Assessment",
      threatLevelWidget threat_level,
      .metric "Confidence" (confidence.display ++ "%"),
      .metric "Crowd Sentiment" sentiment.display ] ++
      threatsW ++
      [Widget.subheader "🎯 Recommended Actions"] ++
      immW ++ plannedW ++ monitoringW ++
      [Widget.subheader "📊 Data Sources", Widget.writeText joined])
  else
    renderErrorTail "❌ Failed to generate summary" result

/-- The generate-button handler of `show_ai_summary`
(streamlit_components.py 285-300): validates the query, builds
`query_data`, calls the adapter, renders.  A blank query short-circuits
with an inline error and no HTTP call. -/
def show_ai_summary_submit (query zone time_window special_events : String)
    (base_url : String) (transport : Transport) :
    Except String (List Widget) × List Request :=
  if pyStrip query = "" then (.ok [.errorMsg "Please enter a query"], [])
  else
    let query_data := Json.obj [
      ("query", Json.str query),
      ("zone", Json.str zone),
      ("timeWindow", Json.str time_window),
      ("specialEvents",
        if !(special_events = "") then Json.str special_events else Json.null)]
    let called := DrishtiAPI.generate_situational_summary base_url query_data transport
    (renderAiSummaryResult called.1, called.2)

/-- One dispatched-unit expander of `show_emergency_dispatch`
(streamlit_components.py 461-470). -/
def renderDispatchUnit (unit : Json) : Except String (List Widget) := do
  let unit_id ← pyGet unit "unitId" (Json.str "Unknown")
  let unit_type ← pyGet unit "type" (Json.str "Unknown")
  let eta ← pyGet unit "eta" (Json.str "Unknown")
  let status ← pyGet unit "status" (Json.str "Unknown")
  let route ← pyGet unit "route" (Json.obj [])
  let routeW ←
    if route.truthy then do
      let dist ← pyGet route "distance" (Json.str "Unknown")
      let est ← pyGet route "estimatedTime" (Json.str "Unknown")
      pure [Widget.writeText ("**Distance:** " ++ dist.display),
        Widget.writeText ("**Estimated Time:** " ++ est.display)]
    else pure []
  pure ([ Widget.expanderStart ("Unit " ++ unit_id.display),
    Widget.writeText ("**Type:** " ++ unit_type.display),
    Widget.writeText ("**ETA:** " ++ eta.display),
    Widget.writeText ("**Status:** " ++ status.display) ] ++
    routeW ++ [Widget.expanderEnd])

/-- The result-rendering part of `show_emergency_dispatch`
(streamlit_components.py 420-475). -/
def renderDispatchResult (result : Json) : Except String (List Widget) := do
  let ok ← pyGetN result "success"
  if ok.truthy then do
    let incident ← pyGet result "incident" (Json.obj [])
    let dispatch ← pyGet result "dispatch" (Json.obj [])
    let units ← pyGet result "units" (Json.arr [])
    let protocol ← pyGet result "protocol" (Json.obj [])
    let incident_id ← pyGet incident "id" (Json.str "Unknown")
    let units_dispatched ← pyGet dispatch "unitsDispatched" (Json.num 0)
    let fastest_eta ← pyGet dispatch "fastestETA" (Json.num 0)
    let proto_priority ← pyGet protocol "priority" (Json.str "UNKNOWN")
    let proto_response ← pyGet protocol "responseTime" (Json.str "Unknown")
    let equipment ← pyGet protocol "equipment" (Json.arr [])
    let equipW ←
      if equipment.truthy then do
        let items ← pyList equipment
        pure (Widget.writeText "**Required Equipment:**" ::
          items.map fun i => Widget.writeText ("• " ++ i.display))
      else pure []
    let procedures ← pyGet protocol "procedures" (Json.arr [])
    let procW ←
      if procedures.truthy then do
        let items ← pyList procedures
        pure (Widget.writeText "**Response Procedures:**" ::
          items.enum.map fun p =>
            Widget.writeText (toString (p.1 + 1) ++ ". " ++ p.2.display))
      else pure []
    let unitsW ←
      if units.truthy then do
        let items ← pyList units
        let rows ← items.mapM renderDispatchUnit
        pure (Widget.subheader "🚗 Dispatched Units" :: rows.flatten)
      else pure []
    pure ([ Widget.successMsg "✅ Emergency Response Dispatched",
      .subheader "📋 Incident Summary",
      .metric "Incident ID" incident_id.display,
      .metric "Units Dispatched" units_dispatched.display,
      .metric "ETA" (fastest_eta.display ++ " min"),
      .subheader "📋 Response Protocol",
      .writeText ("**Priority:** " ++ proto_priority.display),
      .writeText ("**Target Response Time:** " ++ proto_response.display) ] ++
      equipW ++ procW ++ unitsW)
  else
    renderErrorTail "❌ Dispatch failed" result

/-- The dispatch-button handler of `show_emergency_dispatch`
(streamlit_components.py 402-418): validates the location, builds
`incident_data`, calls the adapter, renders.  A blank location
short-circuits with an inline error and no HTTP call. -/
def show_emergency_dispatch_submit
    (incident_type location description priority : String)
    (latitude longitude : Json) (base_url : String) (transport : Transport) :
    Except String (List Widget) × List Request :=
  if pyStrip location = "" then (.ok [.errorMsg "Please enter a location"], [])
  else
    let incident_data := Json.obj [
      ("type", Json.str incident_type),
      ("location", Json.str location),
      ("description", Json.str description),
      ("priority", Json.str priority),
      ("coordinates", Json.obj [("lat", latitude), ("lng", longitude)])]
    let called := DrishtiAPI.dispatch_emergency base_url incident_data transport
    (renderDispatchResult called.1, called.2)

/-- The confidence display inside a match expander of `show_missing_person`
(streamlit_components2.py 280-286): numeric comparison against 80/60
raises for non-numbers. -/
def confidenceWidget (confidence : Json) : Except String Widget :=
  match confidence with
  | Json.num c =>
      .ok (if c ≥ 80 then .successMsg ("🟢 Confidence: " ++ toString c ++ "%")
        else if c ≥ 60 then .warningMsg ("🟡 Confidence: " ++ toString c ++ "%")
        else .infoMsg ("🔵 Confidence: " ++ toString c ++ "%"))
  | _ => .error "TypeError"

/-- One match expander of `show_missing_person`
(streamlit_components2.py 274-301); `i` is the loop index. -/
def renderMatch (i : Nat) (m : Json) : Except String (List Widget) := do
  let location ← pyGet m "location" (Json.str "Unknown Location")
  let confidence ← pyGet m "confidence" (Json.num 0)
  let confW ← confidenceWidget confidence
  let camera_id ← pyGet m "cameraId" (Json.str "Unknown")
  let timestamp ← pyGet m "timestamp" (Json.str "Unknown")
  let location2 ← pyGet m "location" (Json.str "Unknown")
  let match_description ← pyGet m "description" (Json.str "No description")
  let requires_verification ← pyGet m "requiresVerification" (Json.bool true)
  let image_available ← pyGet m "imageAvailable" (Json.bool false)
  pure ([ Widget.expanderStart
      ("Match " ++ toString (i + 1) ++ " - " ++ location.display),
    confW,
    Widget.writeText ("**Camera:** " ++ camera_id.display),
    Widget.writeText ("**Time:** " ++ timestamp.display),
    Widget.writeText ("**Location:** " ++ location2.display),
    Widget.writeText ("**Description:** " ++ match_description.display) ] ++
    (if requires_verification.truthy
      then [Widget.warningMsg "⚠️ Manual verification required"] else []) ++
    (if image_available.truthy
      then [Widget.infoMsg "📷 Camera image available for review"] else []) ++
    [Widget.expanderEnd])

/-- The result-rendering part of `show_missing_person`
(streamlit_components2.py 237-323). -/
def renderMissingPersonResult (result : Json) : Except String (List Widget) := do
  let ok ← pyGetN result "success"
  if ok.truthy then do
    let search_info ← pyGet result "search" (Json.obj [])
    let results ← pyGet result "results" (Json.obj [])
    let match_list ← pyGet result "matches" (Json.arr [])
    let search_status ← pyGet result "searchStatus" (Json.obj [])
    let person_id ← pyGet search_info "personId" (Json.str "Unknown")
    let potential_matches ← pyGet results "potentialMatches" (Json.num 0)
    let high_confidence ← pyGet results "highConfidenceMatches" (Json.num 0)
    let cameras_searched ← pyGet results "camerasSearched" (Json.num 0)
    let status ← pyGet search_status "status" (Json.str "unknown")
    let status_upper ← pyUpper status
    let statusW :=
      match status with
      | Json.str "active" => Widget.successMsg ("🟢 Search Status: " ++ status_upper)
      | _ => Widget.infoMsg ("🔵 Search Status: " ++ status_upper)
    let est_completion ← pyGet search_status "estimatedCompletion" (Json.str "Unknown")
    let coverage ← pyGet results "searchCoverage" (Json.str "Unknown")
    let matchesW ←
      if match_list.truthy then do
        let items ← pyList match_list
        let rows ← items.enum.mapM fun p => renderMatch p.1 p.2
        pure (Widget.subheader "🎯 Potential Matches Found" :: rows.flatten)
      else pure [Widget.infoMsg "No matches found in initial search"]
    let next_steps ← pyGet result "nextSteps" (Json.arr [])
    let stepsW ←
      if next_steps.truthy then do
        let items ← pyList next_steps
        pure (Widget.subheader "🎯 Next Steps" ::
          items.map fun s => Widget.infoMsg ("• " ++ s.display))
      else pure []
    let alerts_activated ← pyGet search_status "alertsActivated" (Json.bool false)
    let public_alert ← pyGet search_status "publicAlertRecommended" (Json.bool false)
    pure ([ Widget.successMsg "✅ Search Initiated Successfully",
      .subheader "📋 Search Summary",
      .metric "Person ID" person_id.display,
      .metric "Potential Matches" potential_matches.display,
      .metric "High Confidence" high_confidence.display,
      .metric "Cameras Searched" cameras_searched.display,
      .subheader "📊 Search Status",
      statusW,
      .writeText ("**Estimated Completion:** " ++ est_completion.display),
      .writeText ("**Search Coverage:** " ++ coverage.display) ] ++
      matchesW ++ stepsW ++
      (if alerts_activated.truthy
        then [Widget.successMsg "✅ Security alerts have been activated"] else []) ++
      (if public_alert.truthy
        then [Widget.warningMsg "⚠️ Public alert system activation recommended"]
        else []))
  else
    renderErrorTail "❌ Search initiation failed" result

/-- The search-button handler of `show_missing_person`
(streamlit_components2.py 210-235): validates the description, builds
`search_data`, calls the adapter, renders.  A blank description
short-circuits with an inline error and no HTTP call. -/
def show_missing_person_submit
    (description last_location urgency_level contact_name contact_phone : String)
    (photo_uploaded : Bool)
    (age_range clothing_details distinguishing_features medical_conditions : String)
    (base_url : String) (transport : Transport) :
    Except String (List Widget) × List Request :=
  if pyStrip description = "" then
    (.ok [.errorMsg "Please provide a physical description"], [])
  else
    let search_data := Json.obj [
      ("description", Json.str description),
      ("lastKnownLocation", Json.str last_location),
      ("urgencyLevel", Json.str urgency_level),
      ("contactInfo", Json.obj [
        ("name", Json.str contact_name),
        ("phone", Json.str contact_phone)]),
      ("photoData", Json.bool photo_uploaded),
      ("additionalDetails", Json.obj [
        ("ageRange", Json.str age_range),
        ("clothingDetails", Json.str clothing_details),
        ("distinguishingFeatures", Json.str distinguishing_features),
        ("medicalConditions", Json.str medical_conditions)])]
    let called := DrishtiAPI.search_missing_person base_url search_data transport
    (renderMissingPersonResult called.1, called.2)

/-!
## Claimed shapes (written from the claims, for comparison with the code)
-/

/-- From the claims: the per-operation timeout in seconds. -/
def specTimeout : Op → Nat
  | .health => 5
  | .dashboard => 10
  | .analyzeCrowd => 15
  | .dispatch => 15
  | .detect => 15
  | .summary => 20
  | .search => 20

/-- From the claims: the HTTP verb per operation. -/
def specVerb : Op → String
  | .health => "GET"
  | .dashboard => "GET"
  | _ => "POST"

/-- From the claims: the endpoint path per operation. -/
def specPath : Op → String
  | .health => "/api/health"
  | .dashboard => "/api/dashboard"
  | .analyzeCrowd => "/api/analyze-crowd-dynamics"
  | .summary => "/api/situational-summary"
  | .dispatch => "/api/emergency-incident"
  | .detect => "/api/detect-anomalies"
  | .search => "/api/missing-person"

/-- From the claims: the request body per operation — every POST operation
sends its payload as a structured JSON body, the GET operations send none. -/
def specBody (op : Op) (payload : Json) : Option Json :=
  match op with
  | .health => none
  | .dashboard => none
  | _ => some payload

/-- The failure shape the claims assert: a `success` field that is `false`,
and an `error` field holding a non-empty string. -/
def successFalseErrorForm (j : Json) : Bool :=
  (match j.lookup "success" with
    | some (Json.bool false) => true
    | _ => false) &&
  (match j.lookup "error" with
    | some (Json.str s) => !(s = "")
    | _ => false)

/-- Well-formedness of an optional field: absent, or an object. -/
def objOrAbsent : Option Json → Bool
  | none => true
  | some (Json.obj _) => true
  | _ => false

/-- Well-formedness of an optional field: absent, or a list. -/
def arrOrAbsent : Option Json → Bool
  | none => true
  | some (Json.arr _) => true
  | _ => false

/-- Well-formedness of an optional field: absent, or a string. -/
def strOrAbsent : Option Json → Bool
  | none => true
  | some (Json.str _) => true
  | _ => false

/-!
## Theorems
-/

theorem okBind {α β : Type} (a : α) (f : α → Except String β) :
    (Except.ok a >>= f : Except String β) = f a := rfl

theorem pureOk {α : Type} (a : α) :
    (pure a : Except String α) = Except.ok a := rfl

theorem objOrAbsent_getD {o : Option Json} (h : objOrAbsent o = true) :
    ∃ fs, o.getD (Json.obj []) = Json.obj fs := by
  match o with
  | none => exact ⟨[], rfl⟩
  | some (Json.obj fs) => exact ⟨fs, rfl⟩
  | some Json.null => simp [objOrAbsent] at h
  | some (Json.bool _) => simp [objOrAbsent] at h
  | some (Json.num _) => simp [objOrAbsent] at h
  | some (Json.str _) => simp [objOrAbsent] at h
  | some (Json.arr _) => simp [objOrAbsent] at h

theorem arrOrAbsent_getD {o : Option Json} (h : arrOrAbsent o = true) :
    ∃ xs, o.getD (Json.arr []) = Json.arr xs := by
  match o with
  | none => exact ⟨[], rfl⟩
  | some (Json.arr xs) => exact ⟨xs, rfl⟩
  | some Json.null => simp [arrOrAbsent] at h
  | some (Json.bool _) => simp [arrOrAbsent] at h
  | some (Json.num _) => simp [arrOrAbsent] at h
  | some (Json.str _) => simp [arrOrAbsent] at h
  | some (Json.obj _) => simp [arrOrAbsent] at h

theorem strOrAbsent_getD {o : Option Json} (d : String)
    (h : strOrAbsent o = true) :
    ∃ s, o.getD (Json.str d) = Json.str s := by
  match o with
  | none => exact ⟨d, rfl⟩
  | some (Json.str s) => exact ⟨s, rfl⟩
  | some Json.null => simp [strOrAbsent] at h
  | some (Json.bool _) => simp [strOrAbsent] at h
  | some (Json.num _) => simp [strOrAbsent] at h
  | some (Json.arr _) => simp [strOrAbsent] at h
  | some (Json.obj _) => simp [strOrAbsent] at h

/-- C2: every adapter operation issues exactly one HTTP request per
invocation (no retry on any outcome — the trace is a one-element list for
every transport behaviour), and that request carries the fixed
per-operation timeout: 5s for the health check, 10s for the dashboard
fetch, 15s for crowd analysis, emergency dispatch and anomaly detection,
and 20s for the situational summary and the missing-person search. -/
theorem C2_single_request_fixed_timeout (op : Op) (base_url : String)
    (payload : Json) (transport : Transport) :
    (runOp op base_url payload transport).2.map Request.timeoutSecs
      = [specTimeout op] := by
  cases op <;> rfl

/-- C8: each operation targets exactly the documented verb and path on the
configured base address, and every POST operation sends its payload as a
structured JSON body (the GET operations send none). -/
theorem C8_documented_endpoints (op : Op) (base_url : String) (payload : Json)
    (transport : Transport) :
    (runOp op base_url payload transport).2.map
        (fun r => (r.verb, r.url, r.jsonBody))
      = [(specVerb op, base_url ++ specPath op, specBody op payload)] := by
  cases op <;> rfl

/-- C4: when the HTTP call yields a response whose body parses as JSON,
every adapter operation returns that parsed body exactly as received — no
renaming, no coercion, no wrapper. -/
theorem C4_success_passthrough (op : Op) (base_url : String) (payload : Json)
    (status : Nat) (body : Json) :
    (runOp op base_url payload (fun _ => Outcome.resp status (Except.ok body))).1
      = body := by
  cases op <;> rfl

/-- C5: failure is strictly the exception path, never an HTTP-status check:
the adapter result is independent of the status code, and any
JSON-parseable body — at any status, 500 included — is returned exactly as
on the success path. -/
theorem C5_status_code_never_inspected (op : Op) (base_url : String)
    (payload : Json) :
    (∀ (s₁ s₂ : Nat) (body : Except String Json),
      (runOp op base_url payload (fun _ => Outcome.resp s₁ body)).1
        = (runOp op base_url payload (fun _ => Outcome.resp s₂ body)).1) ∧
    (∀ (status : Nat) (body : Json),
      (runOp op base_url payload (fun _ => Outcome.resp status (Except.ok body))).1
        = body) := by
  constructor
  · intro s₁ s₂ body
    cases op <;> cases body <;> rfl
  · intro status body
    cases op <;> rfl

/-- C1 counterexample: the claim includes the health check among the
operations whose transport failure yields `success: false` plus a
non-empty `error` — but `health_check` on a raised request returns
`⟨error: msg, status: "error"⟩`, with no `success` field at all, so the
claimed shape fails at this concrete input. -/
theorem C1_counterexample :
    successFalseErrorForm
      (DrishtiAPI.health_check "http://localhost:3001"
        (fun _ => Outcome.exc "connection refused")).1 = false ∧
    ((DrishtiAPI.health_check "http://localhost:3001"
        (fun _ => Outcome.exc "connection refused")).1).lookup "success"
      = none := by
  exact ⟨rfl, rfl⟩

/-- C1 (amended): no exception ever propagates from an adapter operation —
the result of a transport failure with message `msg` is
`⟨error: msg, success: false⟩` for the six data operations and
`⟨error: msg, status: "error"⟩` (no `success` field) for the health check;
for a non-empty message the data operations' result is exactly the
claimed `success=false` / non-empty-`error` form, and the health check
still carries the non-empty `error` string. -/
theorem C1_amended_transport_failure (op : Op) (base_url : String)
    (payload : Json) (msg : String) (h : msg ≠ "") :
    (runOp op base_url payload (fun _ => Outcome.exc msg)).1
      = (if op.isDataOp then failureResult msg else healthFailureResult msg) ∧
    successFalseErrorForm (failureResult msg) = true ∧
    (healthFailureResult msg).lookup "error" = some (Json.str msg) := by
  refine ⟨?_, ?_, rfl⟩
  · cases op <;> rfl
  · show (true && !(decide (msg = ""))) = true
    simp [h]

theorem C1_amended_transport_failure_witness :
    ("connection refused" ≠ "") ∧
    ((runOp Op.dashboard "http://localhost:3001" Json.null
        (fun _ => Outcome.exc "connection refused")).1
      = (if Op.dashboard.isDataOp then failureResult "connection refused"
          else healthFailureResult "connection refused") ∧
     successFalseErrorForm (failureResult "connection refused") = true ∧
     (healthFailureResult "connection refused").lookup "error"
       = some (Json.str "connection refused")) :=
  ⟨by decide,
    C1_amended_transport_failure Op.dashboard "http://localhost:3001"
      Json.null "connection refused" (by decide)⟩

/-- C3 counterexample: the normalized-result invariant fails on results the
adapter passes through — a backend body carrying both `success: true` and
an `error` field is returned as-is by `get_dashboard_data`, so a returned
result can have `success` true with the `error` field present. -/
theorem C3_counterexample :
    ((DrishtiAPI.get_dashboard_data "http://localhost:3001"
        (fun _ => Outcome.resp 200 (Except.ok (Json.obj
          [("success", Json.bool true),
           ("error", Json.str "backend failure")])))).1).lookup "success"
      = some (Json.bool true) ∧
    ((DrishtiAPI.get_dashboard_data "http://localhost:3001"
        (fun _ => Outcome.resp 200 (Except.ok (Json.obj
          [("success", Json.bool true),
           ("error", Json.str "backend failure")])))).1).lookup "error"
      = some (Json.str "backend failure") := by
  exact ⟨rfl, rfl⟩

/-- C3 (amended): the invariant holds for the failure results the adapter
itself constructs: a transport failure on a data operation yields exactly
`⟨error: msg, success: false⟩` — error populated and no data fields — and
on the health check exactly `⟨error: msg, status: "error"⟩`, with no
`success` field; success-path results are the parsed body unchanged, so
the `error` field is present exactly when the response body carried it
(in particular `success: true` does not guarantee `error` is absent). -/
theorem C3_amended_failure_invariant (op : Op) (base_url : String)
    (payload : Json) (msg : String) :
    (op.isDataOp = true →
      (runOp op base_url payload (fun _ => Outcome.exc msg)).1
        = Json.obj [("error", Json.str msg), ("success", Json.bool false)]) ∧
    (op.isDataOp = false →
      (runOp op base_url payload (fun _ => Outcome.exc msg)).1
        = Json.obj [("error", Json.str msg), ("status", Json.str "error")]) ∧
    (∀ (status : Nat) (body : Json),
      ((runOp op base_url payload
          (fun _ => Outcome.resp status (Except.ok body))).1).lookup "error"
        = body.lookup "error") := by
  refine ⟨fun h => ?_, fun h => ?_, fun status body => ?_⟩
  · cases op <;> first | rfl | simp [Op.isDataOp] at h
  · cases op <;> first | rfl | simp [Op.isDataOp] at h
  · cases op <;> rfl

theorem C3_amended_failure_invariant_witness :
    Op.dashboard.isDataOp = true ∧
    (runOp Op.dashboard "http://localhost:3001" Json.null
        (fun _ => Outcome.exc "timed out")).1
      = Json.obj [("error", Json.str "timed out"), ("success", Json.bool false)] :=
  ⟨by decide,
    (C3_amended_failure_invariant Op.dashboard "http://localhost:3001"
      Json.null "timed out").1 (by decide)⟩

theorem renderErrorTail_obj (headline : String) (fields : List (String × Json)) :
    renderErrorTail headline (Json.obj fields)
      = Except.ok (Widget.errorMsg headline ::
          (if (fields.lookup "error").isSome then
            [Widget.errorMsg ("Error: "
              ++ ((fields.lookup "error").getD Json.null).display)]
          else [])) := by
  cases hle : fields.lookup "error" with
  | none =>
      simp only [renderErrorTail, Json.hasKey, pyGetN, pyGet, Json.lookup, hle]
      rfl
  | some e =>
      simp only [renderErrorTail, Json.hasKey, pyGetN, pyGet, Json.lookup, hle]
      rfl

/-- C6: whenever the dashboard fetch result is an object whose `success`
field is absent or `false`, the dashboard renderer completes and its output
includes the fixed offline sample metrics — Active Cameras 12, Avg Crowd
Density 45%, Active Emergencies 2, Response Time 6 min — rather than blank
metric fields. -/
theorem C6_offline_fallback (fields : List (String × Json))
    (h : (Json.obj fields).lookup "success" = none ∨
         (Json.obj fields).lookup "success" = some (Json.bool false)) :
    ∃ ws, renderDashboard (Json.obj fields) = Except.ok ws ∧
      Widget.metric "Active Cameras" "12" ∈ ws ∧
      Widget.metric "Avg Crowd Density" "45%" ∈ ws ∧
      Widget.metric "Active Emergencies" "2" ∈ ws ∧
      Widget.metric "Response Time" "6 min" ∈ ws := by
  have h' : fields.lookup "success" = none ∨
      fields.lookup "success" = some (Json.bool false) := h
  have key : renderDashboard (Json.obj fields)
      = Except.ok ([Widget.header "📊 Real-Time Dashboard",
          Widget.errorMsg "❌ Failed to load dashboard data"] ++
          (if (fields.lookup "error").isSome then
            [Widget.errorMsg ("Error: "
              ++ ((fields.lookup "error").getD Json.null).display)]
          else []) ++
          [Widget.infoMsg "📱 Running in offline mode with sample data"] ++
          show_offline_dashboard) := by
    rcases h' with h' | h' <;>
      simp only [renderDashboard, pyGetN, pyGet, Json.lookup, h',
        Option.getD, Json.truthy, okBind, pureOk, renderErrorTail_obj,
        Bool.false_eq_true, if_false] <;>
      rfl
  refine ⟨_, key, ?_, ?_, ?_, ?_⟩ <;>
    cases (fields.lookup "error").isSome <;>
    simp [show_offline_dashboard]

theorem C6_offline_fallback_witness :
    ((Json.obj ([] : List (String × Json))).lookup "success" = none ∨
      (Json.obj ([] : List (String × Json))).lookup "success"
        = some (Json.bool false)) ∧
    (∃ ws, renderDashboard (Json.obj []) = Except.ok ws ∧
      Widget.metric "Active Cameras" "12" ∈ ws ∧
      Widget.metric "Avg Crowd Density" "45%" ∈ ws ∧
      Widget.metric "Active Emergencies" "2" ∈ ws ∧
      Widget.metric "Response Time" "6 min" ∈ ws) :=
  ⟨Or.inl rfl, C6_offline_fallback [] (Or.inl rfl)⟩

/-- C7: missing optional fields are substituted with the documented
defaults and never raise.  For the crowd-analysis renderer, on a
successful result whose `analysis` value is an object missing
`currentMetrics`, `predictions`, `alertLevel` and `proactiveActions`
(in particular, when `analysis` is absent altogether), every nested field
it reads is absent, and the renderer completes with exactly the documented
defaults: People Count 0, Density 0%, Alert Level LOW, Confidence 0%, no
bottleneck warning, and no recommended-actions section (empty-list
default).  For the system-metrics renderer, on a non-empty metrics object
missing `crowdAnalysis`, `security` and `operations`, it completes with
the documented defaults: counts and densities 0, Threat Level LOW,
Response Time 0 min (plus the code's NORMAL/99.9% fillers for the fields
the claim does not enumerate). -/
theorem C7_missing_fields_defaults
    (rfields afields mfields : List (String × Json))
    (hs : rfields.lookup "success" = some (Json.bool true))
    (ha : (rfields.lookup "analysis").getD (Json.obj []) = Json.obj afields)
    (h1 : afields.lookup "currentMetrics" = none)
    (h2 : afields.lookup "predictions" = none)
    (h3 : afields.lookup "alertLevel" = none)
    (h4 : afields.lookup "proactiveActions" = none)
    (hm0 : mfields ≠ [])
    (hm1 : mfields.lookup "crowdAnalysis" = none)
    (hm2 : mfields.lookup "security" = none)
    (hm3 : mfields.lookup "operations" = none) :
    renderCrowdAnalysisResult (Json.obj rfields) = Except.ok
      [ Widget.successMsg "✅ Analysis Complete",
        Widget.metric "People Count" "0",
        Widget.metric "Density" "0%",
        Widget.metric "Alert Level" "LOW",
        Widget.metric "Confidence" "0%",
        Widget.subheader "🔮 Predictions",
        Widget.successMsg "✅ No immediate bottleneck risk detected" ] ∧
    show_system_metrics (Json.obj mfields) = Except.ok
      [ Widget.subheader "👥 Crowd Analysis",
        Widget.metric "People Detected" "0",
        Widget.metric "Average Density" "0%",
        Widget.metric "Flow Rate" "NORMAL",
        Widget.subheader "🔒 Security",
        Widget.metric "Anomalies Detected" "0",
        Widget.metric "Threat Level" "LOW",
        Widget.metric "Response Time" "0 min",
        Widget.subheader "🚨 Operations",
        Widget.metric "Active Incidents" "0",
        Widget.metric "Units Available" "0",
        Widget.metric "System Uptime" "99.9%" ] := by
  constructor
  · simp [renderCrowdAnalysisResult, pyGetN, pyGet, Json.lookup, hs, ha,
      h1, h2, h3, h4, okBind, pureOk, Json.truthy, pyIntTimes100,
      Json.display]
    exact ⟨rfl, rfl⟩
  · cases mfields with
    | nil => exact absurd rfl hm0
    | cons p rest =>
        simp [show_system_metrics, pyGet, Json.lookup, hm1, hm2, hm3,
          okBind, pureOk, Json.truthy, Json.display]
        exact ⟨rfl, rfl, rfl, rfl, rfl⟩

theorem C7_missing_fields_defaults_witness :
    (([("success", Json.bool true)] : List (String × Json)).lookup "success"
        = some (Json.bool true) ∧
      (([("success", Json.bool true)] : List (String × Json)).lookup
          "analysis").getD (Json.obj [])
        = Json.obj ([] : List (String × Json)) ∧
      ([("note", Json.null)] : List (String × Json)) ≠ []) ∧
    (renderCrowdAnalysisResult (Json.obj [("success", Json.bool true)])
        = Except.ok
        [ Widget.successMsg "✅ Analysis Complete",
          Widget.metric "People Count" "0",
          Widget.metric "Density" "0%",
          Widget.metric "Alert Level" "LOW",
          Widget.metric "Confidence" "0%",
          Widget.subheader "🔮 Predictions",
          Widget.successMsg "✅ No immediate bottleneck risk detected" ] ∧
      show_system_metrics (Json.obj [("note", Json.null)]) = Except.ok
        [ Widget.subheader "👥 Crowd Analysis",
          Widget.metric "People Detected" "0",
          Widget.metric "Average Density" "0%",
          Widget.metric "Flow Rate" "NORMAL",
          Widget.subheader "🔒 Security",
          Widget.metric "Anomalies Detected" "0",
          Widget.metric "Threat Level" "LOW",
          Widget.metric "Response Time" "0 min",
          Widget.subheader "🚨 Operations",
          Widget.metric "Active Incidents" "0",
          Widget.metric "Units Available" "0",
          Widget.metric "System Uptime" "99.9%" ]) :=
  ⟨⟨rfl, rfl, by simp⟩,
    C7_missing_fields_defaults [("success", Json.bool true)] []
      [("note", Json.null)] rfl rfl rfl rfl rfl rfl (by simp) rfl rfl rfl⟩

/-- C9: a successful missing-person response with `results.potentialMatches`
equal to 0 and an empty `matches` list (the other optional sections being
well-formed: absent or of their expected JSON type) makes the renderer
complete and display the "No matches found in initial search" message
rather than an empty match list with no message. -/
theorem C9_no_matches_message
    (rfields : List (String × Json))
    (hs : rfields.lookup "success" = some (Json.bool true))
    (hm : (rfields.lookup "matches").getD (Json.arr []) = Json.arr [])
    (hpm : Json.getD ((rfields.lookup "results").getD (Json.obj []))
        "potentialMatches" (Json.num 0) = Json.num 0)
    (hres : objOrAbsent (rfields.lookup "results") = true)
    (hsearch : objOrAbsent (rfields.lookup "search") = true)
    (hstat : objOrAbsent (rfields.lookup "searchStatus") = true)
    (hstatus : strOrAbsent (((rfields.lookup "searchStatus").getD
        (Json.obj [])).lookup "status") = true)
    (hsteps : arrOrAbsent (rfields.lookup "nextSteps") = true) :
    ∃ ws, renderMissingPersonResult (Json.obj rfields) = Except.ok ws ∧
      Widget.infoMsg "No matches found in initial search" ∈ ws := by
  obtain ⟨sf, hsf⟩ := objOrAbsent_getD hsearch
  obtain ⟨resf, hresf⟩ := objOrAbsent_getD hres
  obtain ⟨stf, hstf⟩ := objOrAbsent_getD hstat
  rw [hstf] at hstatus
  simp only [Json.lookup] at hstatus
  obtain ⟨sstr, hsstr⟩ := strOrAbsent_getD "unknown" hstatus
  obtain ⟨steps, hstepsv⟩ := arrOrAbsent_getD hsteps
  cases steps with
  | nil =>
      simp [renderMissingPersonResult, pyGetN, pyGet, pyUpper, pyList,
        Json.lookup, hs, hm, hsf, hresf, hstf, hsstr, hstepsv,
        okBind, pureOk, Json.truthy, Json.display]
  | cons s ss =>
      simp [renderMissingPersonResult, pyGetN, pyGet, pyUpper, pyList,
        Json.lookup, hs, hm, hsf, hresf, hstf, hsstr, hstepsv,
        okBind, pureOk, Json.truthy, Json.display]

theorem C9_no_matches_message_witness :
    (([("success", Json.bool true),
        ("results", Json.obj [("potentialMatches", Json.num 0)]),
        ("matches", Json.arr [])] : List (String × Json)).lookup "success"
      = some (Json.bool true)) ∧
    (∃ ws, renderMissingPersonResult (Json.obj
        [("success", Json.bool true),
         ("results", Json.obj [("potentialMatches", Json.num 0)]),
         ("matches", Json.arr [])]) = Except.ok ws ∧
      Widget.infoMsg "No matches found in initial search" ∈ ws) :=
  ⟨rfl, C9_no_matches_message
    [("success", Json.bool true),
     ("results", Json.obj [("potentialMatches", Json.num 0)]),
     ("matches", Json.arr [])] rfl rfl rfl rfl rfl rfl rfl rfl⟩

/-- C10: the three renderers with a required text input validate before
calling the adapter — on submit with a blank (empty or whitespace-only)
query, location, or physical description respectively, the AI-summary,
emergency-dispatch, and missing-person handlers output exactly the inline
error message and an empty request trace: no HTTP call is issued. -/
theorem C10_blank_input_no_call
    (query zone time_window special_events : String)
    (incident_type location description priority : String)
    (latitude longitude : Json)
    (mp_description last_location urgency_level contact_name contact_phone : String)
    (photo_uploaded : Bool)
    (age_range clothing_details distinguishing_features medical_conditions : String)
    (base_url : String) (transport : Transport)
    (hq : pyStrip query = "")
    (hl : pyStrip location = "")
    (hd : pyStrip mp_description = "") :
    show_ai_summary_submit query zone time_window special_events base_url
        transport
      = (Except.ok [Widget.errorMsg "Please enter a query"], []) ∧
    show_emergency_dispatch_submit incident_type location description priority
        latitude longitude base_url transport
      = (Except.ok [Widget.errorMsg "Please enter a location"], []) ∧
    show_missing_person_submit mp_description last_location urgency_level
        contact_name contact_phone photo_uploaded age_range clothing_details
        distinguishing_features medical_conditions base_url transport
      = (Except.ok [Widget.errorMsg "Please provide a physical description"],
          []) := by
  refine ⟨?_, ?_, ?_⟩
  · simp [show_ai_summary_submit, hq]
  · simp [show_emergency_dispatch_submit, hl]
  · simp [show_missing_person_submit, hd]

theorem C10_blank_input_no_call_witness :
    (pyStrip "   " = "" ∧ pyStrip "" = "" ∧ pyStrip " " = "") ∧
    (show_ai_summary_submit "   " "West Zone" "last hour" "" "http://localhost:3001"
        (fun _ => Outcome.exc "offline")
      = (Except.ok [Widget.errorMsg "Please enter a query"], []) ∧
    show_emergency_dispatch_submit "MEDICAL" "" "desc" "high"
        (Json.num 37) (Json.num (-122)) "http://localhost:3001"
        (fun _ => Outcome.exc "offline")
      = (Except.ok [Widget.errorMsg "Please enter a location"], []) ∧
    show_missing_person_submit " " "gate" "high" "a" "b" false
        "Adult (18-65)" "" "" "" "http://localhost:3001"
        (fun _ => Outcome.exc "offline")
      = (Except.ok [Widget.errorMsg "Please provide a physical description"],
          [])) :=
  ⟨⟨rfl, rfl, rfl⟩,
    C10_blank_input_no_call "   " "West Zone" "last hour" "" "MEDICAL" ""
      "desc" "high" (Json.num 37) (Json.num (-122)) " " "gate" "high" "a" "b"
      false "Adult (18-65)" "" "" "" "http://localhost:3001"
      (fun _ => Outcome.exc "offline") rfl rfl rfl⟩

end Drishti
